import Mathlib

/-
Verification development for `automatminer/automl/nn/genetic.py`.

The Python module defines a (broken, unfinished) genetic-algorithm
hyperparameter search: the dataclass `NNModelInfo`, the module-level
`param_grid`, and the class `NNGA` with `__init__`, `tournament_select`,
`evolve`, `fit` and `predict`.  The definitions below are a shallow
embedding of that module:

  * Python dicts with string keys are insertion-ordered association lists
    (`Params`); Python's `==` on dicts is order-insensitive (`pyDictEq`).
  * Python floats appear only through `np.isnan` checks, so a score entry
    is `Option ℚ` with `none` playing the role of NaN.
  * Runtime exceptions (NameError, AttributeError, ValueError, KeyError,
    TypeError, IndexError) are modelled by the `PyErr` sum returned
    through `Except`.
  * External library calls (the NNWrapper model's fit/predict,
    `mean_absolute_error`-style metrics, `regression_or_classification`,
    `train_test_split`, `cross_val_score`) are taken as function
    parameters: the module under verification only pipes their results.
  * `hashlib.sha1` is implemented concretely (FIPS 180 SHA-1 over byte
    lists) because `NNModelInfo.ref` is a hex digest of a serialized
    parameter dict and the claims about it compare concrete digests.
  * Free names that the module never binds (`random_select`, `models`,
    `mother`, `father`, `child`) resolve to module globals in Python; the
    module source defines none of them, so their lookups are NameErrors.
    For `random_select` the binding is kept as an explicit parameter of
    `initExec` (the live module supplies `none`), because one claim is
    about the code that follows that lookup.
-/

/-! ## Python value model -/

/-- A (simplified) Python scalar value as it appears in the hyperparameter
grid: a string (activation / optimizer names) or an integer (unit and
layer counts drawn from `range`). -/
inductive PyVal where
  | str (s : String)
  | int (n : Int)
deriving DecidableEq

/-- A Python dict with string keys, as an insertion-ordered association
list.  Python 3.7+ dicts preserve insertion order, which is what
`OrderedDict(self.params)` and `str(...)` observe. -/
abbrev Params := List (String × PyVal)

/-- A Python float as far as this module observes it: the only
float-specific operation used is `np.isnan`, so `none` stands for NaN and
`some q` for an ordinary numeric value. -/
abbrev PyFloat := Option ℚ

/-- The check `np.isnan` on the float model. -/
def pyIsNan (x : PyFloat) : Bool := x.isNone

/-- Feature matrix (the module never inspects its contents). -/
abbrev XData := List (List ℚ)

/-- Target / prediction vector. -/
abbrev YData := List ℚ

/-- A dataframe column (the module only passes it to external helpers). -/
abbrev Column := List ℚ

/-- Python runtime exceptions raised by the module. -/
inductive PyErr where
  | nameError (name : String)
  | attributeError (ty attr : String)
  | valueError (msg : String)
  | keyError (key : String)
  | typeError (msg : String)
  | indexError
deriving DecidableEq

/-- First-match lookup in an association list (Python `d[k]` / `d.get(k)`
for dicts built without duplicate keys). -/
def lookupParam (d : Params) (k : String) : Option PyVal :=
  match d with
  | [] => none
  | (k', v) :: rest => if k' = k then some v else lookupParam rest k

/-- One inclusion direction of Python dict equality: every pair of `d1`
also holds in `d2`. -/
def subDict (d1 d2 : Params) : Bool :=
  d1.all fun kv => lookupParam d2 kv.1 = some kv.2

/-- Python `==` on dicts: the same key/value pairs, irrespective of
insertion order. -/
def pyDictEq (d1 d2 : Params) : Bool :=
  subDict d1 d2 && subDict d2 d1

theorem pyDictEq_symm (d1 d2 : Params) : pyDictEq d1 d2 = pyDictEq d2 d1 :=
  Bool.and_comm _ _

/-- Python `==` between a population slot (which may still hold `None`)
and a freshly sampled dict: `None == dict` is `False`. -/
def pyEqOptParams : Option Params → Params → Bool
  | none, _ => false
  | some d, params => pyDictEq d params

/-! ## SHA-1 (`hashlib.sha1`), FIPS 180, over byte lists -/

/-- The constant 2^32, the modulus of SHA-1's 32-bit word arithmetic. -/
def w32mod : Nat := 4294967296

/-- Left-rotation of a 32-bit word (value < 2^32) by `s` bits. -/
def rotl (s n : Nat) : Nat := ((n <<< s) + (n >>> (32 - s))) % w32mod

/-- SHA-1 round function for round `t`. -/
def sha1f (t b c d : Nat) : Nat :=
  if t < 20 then (b &&& c) ||| ((b ^^^ 4294967295) &&& d)
  else if t < 40 then b ^^^ c ^^^ d
  else if t < 60 then (b &&& c) ||| (b &&& d) ||| (c &&& d)
  else b ^^^ c ^^^ d

/-- SHA-1 round constant for round `t`. -/
def sha1k (t : Nat) : Nat :=
  if t < 20 then 1518500249
  else if t < 40 then 1859775393
  else if t < 60 then 2400959708
  else 3395469782

/-- Append the next word of the SHA-1 message schedule. -/
def scheduleStep (ws : List Nat) : List Nat :=
  ws ++ [rotl 1 ((ws.getD (ws.length - 3) 0) ^^^ (ws.getD (ws.length - 8) 0) ^^^
                 (ws.getD (ws.length - 14) 0) ^^^ (ws.getD (ws.length - 16) 0))]

/-- Expand the 16 block words to the 80-word message schedule. -/
def schedule (w16 : List Nat) : List Nat :=
  (List.range 64).foldl (fun ws _ => scheduleStep ws) w16

/-- The five 32-bit working registers of SHA-1. -/
structure Sha1St where
  a : Nat
  b : Nat
  c : Nat
  d : Nat
  e : Nat

/-- The 80 compression rounds, consuming the message schedule. -/
def sha1Rounds : Nat → Sha1St → List Nat → Sha1St
  | _, st, [] => st
  | t, st, w :: ws =>
    let temp := (rotl 5 st.a + sha1f t st.b st.c st.d + st.e + sha1k t + w) % w32mod
    sha1Rounds (t + 1) ⟨temp, st.a, rotl 30 st.b, st.c, st.d⟩ ws

/-- Big-endian packing of a 64-byte block into sixteen 32-bit words. -/
def toWords (block : List Nat) : List Nat :=
  (List.range 16).map fun i =>
    ((block.getD (4 * i) 0) <<< 24) + ((block.getD (4 * i + 1) 0) <<< 16) +
    ((block.getD (4 * i + 2) 0) <<< 8) + (block.getD (4 * i + 3) 0)

/-- One SHA-1 block step: compress and add into the chaining state. -/
def processBlock (h : Sha1St) (block : List Nat) : Sha1St :=
  let st := sha1Rounds 0 h (schedule (toWords block))
  ⟨(h.a + st.a) % w32mod, (h.b + st.b) % w32mod, (h.c + st.c) % w32mod,
   (h.d + st.d) % w32mod, (h.e + st.e) % w32mod⟩

/-- SHA-1 padding: a 0x80 byte, zeros, and the 64-bit big-endian bit
length, to a multiple of 64 bytes. -/
def sha1pad (msg : List Nat) : List Nat :=
  let len := msg.length
  let k := (64 - ((len + 9) % 64)) % 64
  msg ++ [128] ++ List.replicate k 0 ++
    (List.range 8).map (fun i => ((8 * len) >>> (8 * (7 - i))) % 256)

/-- Split a padded message into its 64-byte blocks. -/
def blocksOf (l : List Nat) : List (List Nat) :=
  (List.range (l.length / 64)).map (fun i => (l.drop (64 * i)).take 64)

/-- The SHA-1 digest of a byte list, as a 160-bit natural number. -/
def sha1Nat (msg : List Nat) : Nat :=
  let st := (blocksOf (sha1pad msg)).foldl processBlock
    ⟨1732584193, 4023233417, 2562383102, 271733878, 3285377520⟩
  ((((st.a <<< 32) + st.b) <<< 32 + st.c) <<< 32 + st.d) <<< 32 + st.e

/-- Lowercase hex digit. -/
def hexChar (n : Nat) : Char := if n < 10 then Char.ofNat (48 + n) else Char.ofNat (87 + n)

/-- The 40-digit lowercase hex rendering of a 160-bit number. -/
def natToHex40 (n : Nat) : String :=
  ⟨(List.range 40).map fun i => hexChar ((n >>> (4 * (39 - i))) % 16)⟩

/-- Python `str.encode("UTF-8")` for the ASCII strings this module
serializes. -/
def strToBytes (s : String) : List Nat := s.toList.map Char.toNat

/-- Python `hashlib.sha1(...).hexdigest()`. -/
def sha1hex (msg : List Nat) : String := natToHex40 (sha1Nat msg)

/-! ## Module-level constants of `genetic.py` -/

/-- Modelled from the spec: the regression task-mode name constant
`AMM_REG_NAME` imported from `automatminer.utils.ml`, which is not under
`src/`; the spec only calls it "the regression name".  Its concrete value
is irrelevant to every claim — only its distinctness from the
classification name is used. -/
def AMM_REG_NAME : String := "regression"

/-- Modelled from the spec: the classification task-mode name constant
`AMM_CLF_NAME` imported from `automatminer.utils.ml` (not under `src/`);
the spec calls it "the classification name". -/
def AMM_CLF_NAME : String := "classification"

/-- The module-level hyperparameter grid `param_grid` (genetic.py lines
19-24): activation names, optimizer names, `range(1, 1000)` unit counts
and `range(1, 5)` layer counts. -/
def param_grid : List (String × List PyVal) :=
  [("activation", [.str "sigmoid", .str "tanh", .str "relu", .str "elu"]),
   ("optimizers", [.str "sgd", .str "rmsprop", .str "adagrad", .str "adadelta",
                   .str "nadam", .str "adamax", .str "adam"]),
   ("units", (List.range' 1 999).map fun n => .int n),
   ("hidden_layer_sizes", (List.range' 1 4).map fun n => .int n)]

/-! ## `NNModelInfo` (genetic.py lines 27-42) -/

/-- The dataclass `NNModelInfo(params, gen, score, parents, children)`.
`params` is the candidate's hyperparameter dict; `score`, `parents` and
`children` default to `None`. -/
structure NNModelInfo where
  params : Params
  gen : Int
  score : Option ℚ := none
  parents : Option (List String) := none
  children : Option (List String) := none
deriving DecidableEq

/-- The `ordered_params` property: `OrderedDict(self.params)`.  A Python
`OrderedDict` built from a dict preserves the dict's insertion order — it
does not sort or otherwise normalize the keys. -/
def NNModelInfo.ordered_params (m : NNModelInfo) : Params := m.params

/-- Python `repr` of a grid value: strings are quoted, ints printed. -/
def reprPyVal : PyVal → String
  | .str s => "'" ++ s ++ "'"
  | .int n => toString n

/-- Python `repr` of one `(key, value)` pair of an `OrderedDict`. -/
def reprPair (kv : String × PyVal) : String :=
  "('" ++ kv.1 ++ "', " ++ reprPyVal kv.2 ++ ")"

/-- Python `str(OrderedDict([...]))`: the representation Python serializes
before hashing; it lists the pairs in insertion order. -/
def reprOrderedDict (d : Params) : String :=
  "OrderedDict([" ++ String.intercalate ", " (d.map reprPair) ++ "])"

/-- The `ref` property:
`"model_" + sha1(str(self.ordered_params).encode("UTF-8")).hexdigest()`. -/
def NNModelInfo.ref (m : NNModelInfo) : String :=
  "model_" ++ sha1hex (strToBytes (reprOrderedDict m.ordered_params))

/-! ## `NNGA.__init__` (genetic.py lines 54-90) -/

/-- One of the five concrete scorer functions the constructor can store
(`neg_mean_absolute_error`, `neg_mean_squared_error`, `f1_score`,
`roc_auc_score`, `accuracy_score`); the scorers themselves are external
library functions, so only their identity is tracked here. -/
inductive ScorerTag where
  | negMae
  | negMse
  | f1
  | rocAuc
  | accuracy
deriving DecidableEq

/-- The constructor's `reg_metrics` dict. -/
def reg_metrics : List (String × ScorerTag) :=
  [("neg_mae", .negMae), ("neg_mse", .negMse)]

/-- The constructor's `clf_metrics` dict. -/
def clf_metrics : List (String × ScorerTag) :=
  [("f1", .f1), ("roc_auc", .rocAuc), ("accuracy", .accuracy)]

/-- First-match lookup in a metric table (`reg_metrics[reg_metric]`);
`none` means Python raises KeyError. -/
def lookupScorer (l : List (String × ScorerTag)) (k : String) : Option ScorerTag :=
  match l with
  | [] => none
  | (k', v) :: rest => if k' = k then some v else lookupScorer rest k

/-- The arguments of `NNGA.__init__` (the `param_grid` argument is passed
separately).  The Python defaults are `selection_rate=0.75`,
`random_rate=0.05`, `mutation_rate=0.05`, `elitism_rate=0.05`,
`pop_size=15`, `reg_metric='mae'`, `clf_metric='f1'`, `pbar=True`. -/
structure InitArgs where
  selection_rate : ℚ := 3 / 4
  random_rate : ℚ := 1 / 20
  mutation_rate : ℚ := 1 / 20
  elitism_rate : ℚ := 1 / 20
  pop_size : Nat := 15
  reg_metric : String := "mae"
  clf_metric : String := "f1"
  pbar : Bool := true

/-- The attributes `__init__` assigns on `self`, each `none` until (and
unless) its assignment statement executes. -/
structure InitAttrs where
  param_grid : Option (List (String × List PyVal)) := none
  random_select : Option ℚ := none
  mutation_rate : Option ℚ := none
  pop_size : Option Nat := none
  pbar : Option Bool := none
  mode : Option (Option String) := none
  selection_rate : Option ℚ := none
  reg_scorer : Option ScorerTag := none
  clf_scorer : Option ScorerTag := none
  pop : Option (List (String × NNModelInfo)) := none
  model_class : Option Unit := none

/-- The dedup test of the sampling loop:
`any([p == params for p in param_pop])`, where `param_pop` slots are
`None` until filled. -/
def dupCheck (param_pop : List (Option Params)) (params : Params) : Bool :=
  param_pop.any fun p => pyEqOptParams p params

/-- The body of the sampling loop (genetic.py lines 80-86), one iteration
per index: sample a dict, skip it (leaving the slot `None`) if it is
`==`-equal to anything already in `param_pop`, otherwise store it at
index `i`. -/
def samplePopGo (samples : Nat → Params) : List Nat → List (Option Params) → List (Option Params)
  | [], acc => acc
  | i :: rest, acc =>
    let params := samples i
    if dupCheck acc params then samplePopGo samples rest acc
    else samplePopGo samples rest (acc.set i (some params))

/-- Statement `param_pop = [None] * pop_size` followed by the
`for i in range(pop_size)` sampling loop.  `samples i` is the dict the
`random.choice` comprehension produces at iteration `i` (randomness is
external). -/
def samplePop (samples : Nat → Params) (pop_size : Nat) : List (Option Params) :=
  samplePopGo samples (List.range pop_size) (List.replicate pop_size none)

/-- Insert-or-overwrite for the `{nn.ref: nn for nn in nns}` dict
comprehension (later entries overwrite equal keys, insertion order kept). -/
def dictInsert (l : List (String × NNModelInfo)) (k : String) (v : NNModelInfo) :
    List (String × NNModelInfo) :=
  if l.any fun kv => kv.1 = k then l.map fun kv => if kv.1 = k then (k, v) else kv
  else l ++ [(k, v)]

/-- Statement `nns = [NNModelInfo(p, 0) for p in param_pop]` followed by
`self.pop = {nn.ref: nn for nn in nns}`, walking `param_pop` in order.
A slot that stayed `None` yields `NNModelInfo(None, 0)`, whose `ref`
evaluates `OrderedDict(None)` — a TypeError. -/
def popBuildGo (acc : List (String × NNModelInfo)) :
    List (Option Params) → Except PyErr (List (String × NNModelInfo))
  | [] => .ok acc
  | none :: _ => .error (.typeError "'NoneType' object is not iterable")
  | some d :: rest =>
    let nn : NNModelInfo := { params := d, gen := 0 }
    popBuildGo (dictInsert acc nn.ref nn) rest

/-- The population dict construction from the sampled slots. -/
def popBuild (l : List (Option Params)) : Except PyErr (List (String × NNModelInfo)) :=
  popBuildGo [] l

/-- The statement sequence of `NNGA.__init__`.  `random_select_global` is
the module-global binding of the free name `random_select` read by
`self.random_select = random_select`; the module source binds no such
name, so a live call corresponds to `random_select_global = none` and the
lookup is a NameError.  The result pairs the attributes assigned so far
with the exception, if any, that aborted the constructor. -/
def initExec (random_select_global : Option ℚ) (pg : List (String × List PyVal))
    (args : InitArgs) (samples : Nat → Params) : InitAttrs × Option PyErr :=
  let a0 : InitAttrs := { param_grid := some pg }
  match random_select_global with
  | none => (a0, some (.nameError "random_select"))
  | some rs =>
    let a1 : InitAttrs :=
      { a0 with random_select := some rs, mutation_rate := some args.mutation_rate,
                pop_size := some 15, pbar := some args.pbar, mode := some none,
                selection_rate := some args.selection_rate }
    match lookupScorer reg_metrics args.reg_metric with
    | none => (a1, some (.keyError args.reg_metric))
    | some rtag =>
      let a2 : InitAttrs := { a1 with reg_scorer := some rtag }
      match lookupScorer clf_metrics args.clf_metric with
      | none => (a2, some (.keyError args.clf_metric))
      | some ctag =>
        let a3 : InitAttrs := { a2 with clf_scorer := some ctag }
        match popBuild (samplePop samples args.pop_size) with
        | .error e => (a3, some e)
        | .ok pop => ({ a3 with pop := some pop, model_class := some () }, none)

/-! ## `NNGA.evolve` (genetic.py lines 96-120) -/

/-- The state of an `NNGA` instance as `evolve` reads it: the population
dict `self.pop`, the grid `self.param_grid`, and `self.mode`
(initialized to Python `None`, hence `Option String`). -/
structure EvolveState where
  pop : List (String × NNModelInfo)
  param_grid : List (String × List PyVal)
  mode : Option String

/-- Attribute access `i.gen` where `i` is a *string* — iterating a Python dict yields its
keys, so the comprehension `[i for i in self.pop if i.gen == gen]`
evaluates `.gen` on the string keys of `self.pop`.  `str` objects have no
`gen` attribute: AttributeError. -/
def strGetattrGen (i : String) : Except PyErr Int :=
  .error (.attributeError "str" "gen")

/-- The comprehension `[i for i in self.pop if i.gen == gen]`, evaluated
left to right over the dict's keys. -/
def genPopComp (keys : List String) (gen : Int) : Except PyErr (List String) :=
  match keys with
  | [] => .ok []
  | i :: rest =>
    match strGetattrGen i with
    | .error e => .error e
    | .ok g =>
      match genPopComp rest gen with
      | .error e => .error e
      | .ok tail => .ok (if g = gen then i :: tail else tail)

/-- The `for individual in gen_pop` evaluation loop as the live code would
run it: its elements are the dict keys (strings), and the first statement
of the body reads `individual.params` — an AttributeError on `str`. -/
def evalLoopOnKeys : List String → Except PyErr Unit
  | [] => .ok ()
  | _ :: _ => .error (.attributeError "str" "params")

/-- One iteration of the inner breeding loop,
`child[param] = random.choice([mother[param], father[param]])`: the first
name evaluated on the right-hand side is `mother`, which is bound neither
locally nor at module level — NameError. -/
def breedInner : List (String × List PyVal) → Except PyErr Unit
  | [] => .ok ()
  | _ :: _ => .error (.nameError "mother")

/-- The breeding step `for _ in range(2): for param in self.param_grid: ...`. -/
def breedLoop (grid : List (String × List PyVal)) : Except PyErr Unit :=
  match breedInner grid with
  | .error e => .error e
  | .ok _ => breedInner grid

/-- Method `NNGA.evolve(self, gen, X_train, X_val, y_train, y_val)`: build
`gen_pop` from the population dict, run the evaluation loop over it, then
the breeding loop.  The data arguments are never reached by any live
path. -/
def evolve (st : EvolveState) (gen : Int) (X_train X_val : XData)
    (y_train y_val : YData) : Except PyErr Unit :=
  match genPopComp (st.pop.map Prod.fst) gen with
  | .error e => .error e
  | .ok gen_pop =>
    match evalLoopOnKeys gen_pop with
    | .error e => .error e
    | .ok _ => breedLoop st.param_grid

/-- Python `str(self.mode)` as interpolated by `.format` into the error text. -/
def pyStrOfMode : Option String → String
  | none => "None"
  | some s => s

/-- The message of the ValueError raised for an unsupported mode
(genetic.py lines 104-113). -/
def invalidModeMsg (mode : Option String) : String :=
  "'mode' attribute value " ++ pyStrOfMode mode ++ " is invalid! Must be either " ++
    AMM_REG_NAME ++ " (regression) or " ++ AMM_CLF_NAME ++ " (classification)"

/-- The scorer selection of the evaluation-loop body: `self.reg_scorer`
in regression mode, `self.clf_scorer` in classification mode, and the
module's only `raise` — a ValueError — otherwise. -/
def selectScorer (mode : Option String) (reg_scorer clf_scorer : YData → YData → ℚ) :
    Except PyErr (YData → YData → ℚ) :=
  if mode = some AMM_REG_NAME then .ok reg_scorer
  else if mode = some AMM_CLF_NAME then .ok clf_scorer
  else .error (.valueError (invalidModeMsg mode))

/-- The body of the evaluation loop (genetic.py lines 97-115), embedded at
the element type `NNModelInfo` that the surrounding code intends (the
live comprehension actually yields dict keys, so this body never runs on
an individual — see `evolve` and `evalLoopOnKeys`).  `nnPredict` stands
for the external `self.model_class(**individual.params)` followed by
`.fit(X_train, y_train)` and `.predict(X_val)`; the two scorers stand for
the external metric functions stored by the constructor.  The body
predicts, selects the task-appropriate scorer, applies it to
`(y_val, y_pred)`, and stores the result in `individual.score`. -/
def evalIndividual (nnPredict : Params → XData → YData → XData → YData)
    (mode : Option String) (reg_scorer clf_scorer : YData → YData → ℚ)
    (X_train : XData) (y_train : YData) (X_val : XData) (y_val : YData)
    (individual : NNModelInfo) : Except PyErr NNModelInfo :=
  let y_pred := nnPredict individual.params X_train y_train X_val
  match selectScorer mode reg_scorer clf_scorer with
  | .error e => .error e
  | .ok scorer => .ok { individual with score := some (scorer y_val y_pred) }

/-! ## `NNGA.fit` (genetic.py lines 125-173) -/

/-- The slice of instance state `fit` writes before failing. -/
structure FitState where
  mode : Option String

/-- Lookup `df[target]`: column lookup in the dataframe (KeyError if absent). -/
def dfGet (df : List (String × Column)) (k : String) : Option Column :=
  (df.find? fun kv => kv.1 = k).map Prod.snd

/-- Python `df.drop(columns=target)`. -/
def dfDrop (df : List (String × Column)) (k : String) : List (String × Column) :=
  df.filter fun kv => kv.1 ≠ k

/-- Method `NNGA.fit(self, df, target)` up to its first free name.  `roc` is the
external `regression_or_classification` (automatminer.utils.ml, not under
`src/`); `tts` is sklearn's `train_test_split`.  After looking up the
target column, setting `self.mode` and splitting, the line
`if models[0][0].mode == AMM_REG_NAME:` reads the name `models`, which is
bound neither locally nor at module level — NameError, so `fit` never
returns normally. -/
def fit (roc : Column → String)
    (tts : List (String × Column) → Column → XData × XData × YData × YData)
    (st : FitState) (df : List (String × Column)) (target : String) :
    FitState × Except PyErr Unit :=
  match dfGet df target with
  | none => (st, .error (.keyError target))
  | some col =>
    let X := dfDrop df target
    let st1 : FitState := { st with mode := some (roc col) }
    let _splits := tts X col
    (st1, .error (.nameError "models"))

/-! ## The cross-validation ranking loop of `fit` (genetic.py lines 139-150) -/

/-- An element of the `models` list the ranking loop iterates: something
with a `.mode` attribute, paired with its parameter dict. -/
structure CVModel where
  mode : String
deriving DecidableEq

/-- The regression branch: `grades.append((score, dicti))` for every
model, unconditionally. -/
def gradesReg (cvs : CVModel → List PyFloat) :
    List (CVModel × Params) → List (List PyFloat × Params)
  | [] => []
  | (m, d) :: rest => (cvs m, d) :: gradesReg cvs rest

/-- The classification branch: append `(score, dicti)` only when
`all([not np.isnan(result) for result in score])`. -/
def gradesClf (cvs : CVModel → List PyFloat) :
    List (CVModel × Params) → List (List PyFloat × Params)
  | [] => []
  | (m, d) :: rest =>
    let score := cvs m
    if score.all fun r => !(pyIsNan r) then (score, d) :: gradesClf cvs rest
    else gradesClf cvs rest

/-- The ranking loop's grade collection, over a given binding for the
(otherwise undefined, see `fit`) name `models`: branch on
`models[0][0].mode == AMM_REG_NAME` (IndexError on an empty list), then
run the corresponding accumulation loop.  `cvs` is sklearn's
`cross_val_score` applied to the fixed `(X, y, kfold)`. -/
def gradesOf (cvs : CVModel → List PyFloat) (models : List (CVModel × Params)) :
    Except PyErr (List (List PyFloat × Params)) :=
  match models with
  | [] => .error .indexError
  | m0 :: _ =>
    if m0.1.mode = AMM_REG_NAME then .ok (gradesReg cvs models)
    else .ok (gradesClf cvs models)

/-! ## Helper lemmas -/

theorem selectScorer_reg (rs cs : YData → YData → ℚ) :
    selectScorer (some AMM_REG_NAME) rs cs = .ok rs := by
  unfold selectScorer
  rw [if_pos rfl]

theorem selectScorer_clf (rs cs : YData → YData → ℚ) :
    selectScorer (some AMM_CLF_NAME) rs cs = .ok cs := by
  unfold selectScorer
  rw [if_neg (by decide), if_pos rfl]

/-! ## Claims -/

/-- C1: in each supported mode, the fitness-evaluation step selects the
task-appropriate scorer — the configured regression scorer when the mode
is the regression name, the configured classification scorer when it is
the classification name — invokes it on the validation labels `y_val`
and the model's predictions on the validation split, and stores the
resulting score on the individual. -/
theorem C1_correct_scorer_selected
    (nnPredict : Params → XData → YData → XData → YData)
    (reg_scorer clf_scorer : YData → YData → ℚ)
    (X_train : XData) (y_train : YData) (X_val : XData) (y_val : YData)
    (individual : NNModelInfo) :
    evalIndividual nnPredict (some AMM_REG_NAME) reg_scorer clf_scorer
        X_train y_train X_val y_val individual
      = .ok { individual with
              score := some (reg_scorer y_val (nnPredict individual.params X_train y_train X_val)) } ∧
    evalIndividual nnPredict (some AMM_CLF_NAME) reg_scorer clf_scorer
        X_train y_train X_val y_val individual
      = .ok { individual with
              score := some (clf_scorer y_val (nnPredict individual.params X_train y_train X_val)) } := by
  constructor
  · unfold evalIndividual
    rw [selectScorer_reg]
  · unfold evalIndividual
    rw [selectScorer_clf]

/-- C2 (amended): the fitness-evaluation step applied to an individual
whose mode is neither the regression name nor the classification name
raises the documented ValueError — the class's only explicit raise. -/
theorem C2_unsupported_mode_valueError (mode : Option String)
    (h1 : mode ≠ some AMM_REG_NAME) (h2 : mode ≠ some AMM_CLF_NAME)
    (nnPredict : Params → XData → YData → XData → YData)
    (reg_scorer clf_scorer : YData → YData → ℚ)
    (X_train : XData) (y_train : YData) (X_val : XData) (y_val : YData)
    (individual : NNModelInfo) :
    evalIndividual nnPredict mode reg_scorer clf_scorer X_train y_train X_val y_val individual
      = .error (.valueError (invalidModeMsg mode)) := by
  unfold evalIndividual selectScorer
  rw [if_neg h1, if_neg h2]

/-- C2 witness: with the mode still at its initial `None` — neither task
name — a single fitness evaluation raises the documented ValueError. -/
theorem C2_unsupported_mode_valueError_witness :
    evalIndividual (fun _ _ _ _ => []) none (fun _ _ => 0) (fun _ _ => 0)
        [] [] [] [] { params := [], gen := 0 }
      = .error (.valueError (invalidModeMsg none)) :=
  C2_unsupported_mode_valueError none (by decide) (by decide)
    (fun _ _ _ _ => []) (fun _ _ => 0) (fun _ _ => 0) [] [] [] []
    { params := [], gen := 0 }

/-- A concrete `NNGA` instance state as the live class would have it
after construction: `self.mode` is `None`, the grid is the module's
`param_grid`, and the population is empty. -/
def stubModeSt : EvolveState := { pop := [], param_grid := param_grid, mode := none }

/-- C2 counterexample: a call to `evolve` whose mode is invalid does not
raise the documented ValueError — with an empty population the
evaluation-loop body never runs, and the call instead dies in the
breeding loop with a NameError on `mother`. -/
theorem C2_counterexample :
    (stubModeSt.mode ≠ some AMM_REG_NAME ∧ stubModeSt.mode ≠ some AMM_CLF_NAME) ∧
    evolve stubModeSt 0 [] [] [] [] = .error (.nameError "mother") ∧
    PyErr.nameError "mother" ≠ PyErr.valueError (invalidModeMsg stubModeSt.mode) :=
  ⟨⟨by decide, by decide⟩, by rfl, by decide⟩

/-- C9: whenever the population dict is non-empty, `evolve` raises an
AttributeError before any model is constructed, fitted or scored: the
comprehension iterates the dict itself, yielding its string keys, and
`.gen` on a string has no attribute. -/
theorem C9_evolve_attributeError (st : EvolveState) (gen : Int)
    (X_train X_val : XData) (y_train y_val : YData) (h : st.pop ≠ []) :
    evolve st gen X_train X_val y_train y_val = .error (.attributeError "str" "gen") := by
  rcases hp : st.pop with _ | ⟨⟨k, info⟩, rest⟩
  · exact absurd hp h
  · unfold evolve
    rw [hp]
    rfl

/-- C9 witness: a one-individual population makes `evolve` raise the
AttributeError at once. -/
def popOneSt : EvolveState :=
  { pop := [("model_x", { params := [("activation", .str "relu")], gen := 0 })],
    param_grid := param_grid, mode := some AMM_REG_NAME }

theorem C9_evolve_attributeError_witness :
    popOneSt.pop ≠ [] ∧
    evolve popOneSt 0 [] [] [] [] = .error (.attributeError "str" "gen") :=
  ⟨by decide, C9_evolve_attributeError popOneSt 0 [] [] [] [] (by decide)⟩

/-- C8: every call to `evolve` that completes the fitness-evaluation loop
(which requires an empty population, see C9) and reaches the breeding
step with a non-empty parameter grid raises a NameError: the inner
breeding loop's first right-hand-side name `mother` (like `father` and
the assignment target `child`) is bound nowhere, so no child
configuration is ever produced. -/
theorem C8_breeding_nameError (st : EvolveState) (gen : Int)
    (X_train X_val : XData) (y_train y_val : YData)
    (h1 : st.pop = []) (h2 : st.param_grid ≠ []) :
    evolve st gen X_train X_val y_train y_val = .error (.nameError "mother") := by
  rcases hg : st.param_grid with _ | ⟨g0, grest⟩
  · exact absurd hg h2
  · unfold evolve
    rw [h1, hg]
    rfl

/-- C8 witness: an empty population with the module's own grid reaches
the breeding step and dies on `mother`. -/
def emptyPopSt : EvolveState :=
  { pop := [], param_grid := param_grid, mode := some AMM_REG_NAME }

theorem C8_breeding_nameError_witness :
    emptyPopSt.pop = [] ∧ emptyPopSt.param_grid ≠ [] ∧
    evolve emptyPopSt 0 [] [] [] [] = .error (.nameError "mother") :=
  ⟨rfl, by decide, C8_breeding_nameError emptyPopSt 0 [] [] [] [] rfl (by decide)⟩

/-- A two-key parameter dict, inserted in the order a, b. -/
def paramsAB : Params := [("a", .int 1), ("b", .int 2)]

/-- The same mapping — equal keys and values — inserted in the order b, a. -/
def paramsBA : Params := [("b", .int 2), ("a", .int 1)]

set_option maxRecDepth 100000 in
/-- C3 counterexample: two `NNModelInfo` values whose params dicts are
equal as mappings (`==` in Python) but were inserted in different orders
have different `ref` strings: `OrderedDict(self.params)` preserves — it
does not normalize — the insertion order, and the serialized forms
`OrderedDict([('a', 1), ('b', 2)])` and `OrderedDict([('b', 2), ('a', 1)])`
hash differently. -/
theorem C3_counterexample :
    pyDictEq paramsAB paramsBA = true ∧
    NNModelInfo.ref { params := paramsAB, gen := 0 } ≠
      NNModelInfo.ref { params := paramsBA, gen := 0 } := by
  constructor
  · decide
  · decide

/-- C3 (amended): the identity hash `ref` is a deterministic function of
the insertion-ordered parameter list: two candidates with the same params
list — whatever their generation, score or lineage — have the same ref;
but equality of the params as unordered mappings does not suffice (see
the counterexample), and differing params serialize differently so their
refs are, with overwhelming probability, different. -/
theorem C3_ref_deterministic (m1 m2 : NNModelInfo) (h : m1.params = m2.params) :
    m1.ref = m2.ref := by
  unfold NNModelInfo.ref NNModelInfo.ordered_params
  rw [h]

/-- C3 witness: candidates differing in every field except `params` share
one ref. -/
theorem C3_ref_deterministic_witness :
    NNModelInfo.ref { params := paramsAB, gen := 0 } =
      NNModelInfo.ref { params := paramsAB, gen := 1, score := some 5 } :=
  C3_ref_deterministic _ _ rfl

/-- C4: with the module's actual globals — no binding anywhere for the
free name `random_select` — every call to `NNGA.__init__`, whatever its
arguments and whatever the random sampler yields, stops with a NameError
on its second statement, and consequently no state with a populated
`self.pop` is ever produced by the live constructor. -/
theorem C4_init_nameError (pg : List (String × List PyVal)) (args : InitArgs)
    (samples : Nat → Params) :
    (initExec none pg args samples).2 = some (.nameError "random_select") ∧
    (initExec none pg args samples).1.pop = none :=
  ⟨rfl, rfl⟩

/-- C5: whenever the dataframe has the target column, `fit` sets the mode
from that column (via the external `regression_or_classification`) and
performs the split, and then always fails with a NameError on the free
name `models`; it never returns normally. -/
theorem C5_fit_nameError (roc : Column → String)
    (tts : List (String × Column) → Column → XData × XData × YData × YData)
    (st : FitState) (df : List (String × Column)) (target : String) (col : Column)
    (h : dfGet df target = some col) :
    fit roc tts st df target = ({ mode := some (roc col) }, .error (.nameError "models")) := by
  unfold fit
  rw [h]

/-- C5 witness: a one-column dataframe whose target column the external
mode test classifies as regression. -/
theorem C5_fit_nameError_witness :
    fit (fun _ => AMM_REG_NAME) (fun _ _ => ([], [], [], [])) { mode := none }
        [("target", [1])] "target"
      = ({ mode := some AMM_REG_NAME }, .error (.nameError "models")) :=
  C5_fit_nameError (fun _ => AMM_REG_NAME) (fun _ _ => ([], [], [], []))
    { mode := none } [("target", [1])] "target" [1] (by decide)

/-- Constructor arguments asking for a population of 2, with metric names
that actually exist in the constructor's metric tables. -/
def argsPop2 : InitArgs := { pop_size := 2, reg_metric := "neg_mae" }

/-- A sampler producing pairwise different dicts. -/
def samplesTwo : Nat → Params := fun i => [("units", PyVal.int i)]

set_option maxRecDepth 100000 in
/-- C10: the `pop_size` argument never reaches the stored attribute: in
every execution of `__init__` the `pop_size` attribute is either never
assigned (the constructor aborted first) or assigned the literal 15,
while the sampled `param_pop` list is always built with length equal to
the `pop_size` argument — so, concretely, an instance built with
`pop_size=2` stores 15 while its sampled list has length 2. -/
theorem C10_pop_size_constant :
    (∀ (rsg : Option ℚ) (pg : List (String × List PyVal)) (args : InitArgs)
       (samples : Nat → Params),
       (initExec rsg pg args samples).1.pop_size = none ∨
       (initExec rsg pg args samples).1.pop_size = some 15) ∧
    (∀ (samples : Nat → Params) (n : Nat), (samplePop samples n).length = n) ∧
    ((initExec (some 0) param_grid argsPop2 samplesTwo).1.pop_size = some 15 ∧
     argsPop2.pop_size = 2 ∧ (samplePop samplesTwo 2).length = 2 ∧ 15 ≠ 2) := by
  refine ⟨?_, ?_, ?_, by decide, by decide, by decide⟩
  · intro rsg pg args samples
    unfold initExec
    cases rsg with
    | none => exact Or.inl rfl
    | some rs =>
      refine Or.inr ?_
      cases h1 : lookupScorer reg_metrics args.reg_metric with
      | none => rfl
      | some rtag =>
        cases h2 : lookupScorer clf_metrics args.clf_metric with
        | none => rfl
        | some ctag =>
          cases h3 : popBuild (samplePop samples args.pop_size) with
          | error e => rfl
          | ok pop => rfl
  · intro samples n
    have go : ∀ (idxs : List Nat) (acc : List (Option Params)),
        (samplePopGo samples idxs acc).length = acc.length := by
      intro idxs
      induction idxs with
      | nil => intro acc; rfl
      | cons k rest ih =>
        intro acc
        unfold samplePopGo
        by_cases hdc : dupCheck acc (samples k) = true
        · rw [if_pos hdc, ih]
        · rw [if_neg hdc, ih, List.length_set]
    rw [samplePop, go, List.length_replicate]
  · decide

/-- No two distinct filled slots of a population list hold `==`-equal
parameter dicts. -/
abbrev SlotsDistinct (acc : List (Option Params)) : Prop :=
  ∀ (i j : Nat) (pi pj : Params), i ≠ j → acc[i]? = some (some pi) →
    acc[j]? = some (some pj) → pyDictEq pi pj = false

theorem dupCheck_false_spec (acc : List (Option Params)) (params : Params)
    (h : dupCheck acc params = false) (p : Params) (hmem : some p ∈ acc) :
    pyDictEq p params = false := by
  unfold dupCheck at h
  rw [List.any_eq_false] at h
  have := h _ hmem
  simpa [pyEqOptParams] using this

theorem slotsDistinct_set (acc : List (Option Params)) (k : Nat) (params : Params)
    (hacc : SlotsDistinct acc) (hdc : dupCheck acc params = false) :
    SlotsDistinct (acc.set k (some params)) := by
  intro i j pi pj hij hi hj
  rw [List.getElem?_set] at hi hj
  by_cases hki : k = i
  · rw [if_pos hki] at hi
    have hkj : k ≠ j := hki ▸ hij
    rw [if_neg hkj] at hj
    by_cases hlt : k < acc.length
    · rw [if_pos hlt] at hi
      obtain rfl : params = pi := by injection hi with hx; injection hx
      have hmem : some pj ∈ acc := List.getElem?_mem hj
      rw [pyDictEq_symm]
      exact dupCheck_false_spec acc params hdc pj hmem
    · rw [if_neg hlt] at hi
      cases hi
  · rw [if_neg hki] at hi
    by_cases hkj : k = j
    · rw [if_pos hkj] at hj
      by_cases hlt : k < acc.length
      · rw [if_pos hlt] at hj
        obtain rfl : params = pj := by injection hj with hx; injection hx
        have hmem : some pi ∈ acc := List.getElem?_mem hi
        exact dupCheck_false_spec acc params hdc pi hmem
      · rw [if_neg hlt] at hj
        cases hj
    · rw [if_neg hkj] at hj
      exact hacc i j pi pj hij hi hj

theorem samplePopGo_slotsDistinct (samples : Nat → Params) (idxs : List Nat)
    (acc : List (Option Params)) (hacc : SlotsDistinct acc) :
    SlotsDistinct (samplePopGo samples idxs acc) := by
  induction idxs generalizing acc with
  | nil => exact hacc
  | cons k rest ih =>
    unfold samplePopGo
    by_cases hdc : dupCheck acc (samples k) = true
    · rw [if_pos hdc]
      exact ih acc hacc
    · rw [if_neg hdc]
      exact ih _ (slotsDistinct_set acc k (samples k) hacc
        (Bool.eq_false_iff.mpr hdc))

/-- The dict sampled by the duplicate run of the C6 scenario. -/
def dupSample : Params := [("activation", .str "relu")]

/-- C6 counterexample: the distinctness check is not vacuous and does not
always compare against `None`-initialized slots — at the second
iteration it compares the fresh sample against the filled slot 0,
detects the duplicate, and skips it; duplicates of already-filled slots
are therefore prevented (the failure mode is the `None` hole the skip
leaves behind, not a repeated dict). -/
theorem C6_counterexample :
    dupCheck [some dupSample] dupSample = true ∧
    samplePop (fun _ => dupSample) 2 = [some dupSample, none] := by
  constructor
  · decide
  · decide

/-- C6 (amended): the initializer still does not produce `pop_size`
distinct sampled individuals, but for a different reason than the claim
gives: the check does compare a fresh sample against previously filled
slots and skips any duplicate, so filled slots are pairwise distinct as
mappings; the skipped iteration is not resampled, leaving its slot
`None` — concretely, a duplicating sampler run with `pop_size = 2`
leaves slot 1 `None`, so the resulting population is not 2 distinct
sampled individuals. -/
theorem C6_dedup_leaves_hole :
    (∀ (samples : Nat → Params) (n : Nat), SlotsDistinct (samplePop samples n)) ∧
    (samplePop (fun _ => dupSample) 2)[1]? = some none := by
  constructor
  · intro samples n
    apply samplePopGo_slotsDistinct
    intro i j pi pj hij hi hj
    rw [List.getElem?_replicate] at hi
    by_cases hlt : i < n
    · rw [if_pos hlt] at hi
      cases hi
    · rw [if_neg hlt] at hi
      cases hi
  · decide

/-- C6 witness: a sampler producing two different dicts fills both slots,
and the amended distinctness guarantee applies to them. -/
theorem C6_dedup_leaves_hole_witness :
    pyDictEq [("units", PyVal.int 0)] [("units", PyVal.int 1)] = false :=
  C6_dedup_leaves_hole.1 (fun i => [("units", PyVal.int i)]) 2 0 1
    [("units", PyVal.int 0)] [("units", PyVal.int 1)]
    (by decide) (by decide) (by decide)

theorem gradesReg_mem (cvs : CVModel → List PyFloat) (L : List (CVModel × Params))
    (m : CVModel) (d : Params) (h : (m, d) ∈ L) : (cvs m, d) ∈ gradesReg cvs L := by
  induction L with
  | nil => cases h
  | cons hd tl ih =>
    obtain ⟨m0, d0⟩ := hd
    unfold gradesReg
    rcases List.mem_cons.mp h with h0 | h1
    · injection h0 with hm2 hd2
      subst hm2
      subst hd2
      exact List.mem_cons_self _ _
    · exact List.mem_cons_of_mem _ (ih h1)

theorem gradesClf_mem_sound (cvs : CVModel → List PyFloat) (L : List (CVModel × Params))
    (s : List PyFloat) (d : Params) (h : (s, d) ∈ gradesClf cvs L) :
    s.all (fun r => !(pyIsNan r)) = true := by
  induction L with
  | nil => cases h
  | cons hd tl ih =>
    obtain ⟨m0, d0⟩ := hd
    unfold gradesClf at h
    by_cases hc : (cvs m0).all (fun r => !(pyIsNan r)) = true
    · rw [if_pos hc] at h
      rcases List.mem_cons.mp h with h0 | h1
      · injection h0 with hs2 hd2
        rw [hs2]
        exact hc
      · exact ih h1
    · rw [if_neg hc] at h
      exact ih h
  
theorem gradesClf_mem_complete (cvs : CVModel → List PyFloat) (L : List (CVModel × Params))
    (m : CVModel) (d : Params) (hm : (m, d) ∈ L)
    (hnan : (cvs m).all (fun r => !(pyIsNan r)) = true) :
    (cvs m, d) ∈ gradesClf cvs L := by
  induction L with
  | nil => cases hm
  | cons hd tl ih =>
    obtain ⟨m0, d0⟩ := hd
    unfold gradesClf
    rcases List.mem_cons.mp hm with h0 | h1
    · injection h0 with hm2 hd2
      subst hm2
      subst hd2
      rw [if_pos hnan]
      exact List.mem_cons_self _ _
    · by_cases hc : (cvs m0).all (fun r => !(pyIsNan r)) = true
      · rw [if_pos hc]
        exact List.mem_cons_of_mem _ (ih h1)
      · rw [if_neg hc]
        exact ih h1

/-- C7: in the cross-validation ranking loop, run on a non-empty binding
for `models`, the classification branch (taken when the first model's
mode is not the regression name) includes a model's score vector in the
grades only if none of its entries is NaN — and includes every NaN-free
one — whereas the regression branch includes every model's score vector
unconditionally. -/
theorem C7_nan_filter (cvs : CVModel → List PyFloat) (m0 : CVModel × Params)
    (rest : List (CVModel × Params)) :
    (m0.1.mode ≠ AMM_REG_NAME →
       gradesOf cvs (m0 :: rest) = .ok (gradesClf cvs (m0 :: rest)) ∧
       (∀ (s : List PyFloat) (d : Params), (s, d) ∈ gradesClf cvs (m0 :: rest) →
          s.all (fun r => !(pyIsNan r)) = true) ∧
       (∀ (m : CVModel) (d : Params), (m, d) ∈ m0 :: rest →
          (cvs m).all (fun r => !(pyIsNan r)) = true →
          (cvs m, d) ∈ gradesClf cvs (m0 :: rest))) ∧
    (m0.1.mode = AMM_REG_NAME →
       gradesOf cvs (m0 :: rest) = .ok (gradesReg cvs (m0 :: rest)) ∧
       ∀ (m : CVModel) (d : Params), (m, d) ∈ m0 :: rest →
         (cvs m, d) ∈ gradesReg cvs (m0 :: rest)) := by
  constructor
  · intro hm
    refine ⟨?_, fun s d h => gradesClf_mem_sound cvs _ s d h,
            fun m d hm' hn => gradesClf_mem_complete cvs _ m d hm' hn⟩
    show (if m0.1.mode = AMM_REG_NAME then Except.ok (gradesReg cvs (m0 :: rest))
          else Except.ok (gradesClf cvs (m0 :: rest))) =
        Except.ok (gradesClf cvs (m0 :: rest))
    rw [if_neg hm]
  · intro hm
    refine ⟨?_, fun m d h => gradesReg_mem cvs _ m d h⟩
    show (if m0.1.mode = AMM_REG_NAME then Except.ok (gradesReg cvs (m0 :: rest))
          else Except.ok (gradesClf cvs (m0 :: rest))) =
        Except.ok (gradesReg cvs (m0 :: rest))
    rw [if_pos hm]

/-- The `cross_val_score` outcome of the C7 witness scenario: one model
scores without NaN, the other's vector contains a NaN. -/
def cvsEx : CVModel → List PyFloat :=
  fun m => if m.mode = "clfA" then [some 1, some 0] else [some 1, none]

/-- First witness model (non-regression mode, NaN-free scores). -/
def cvM0 : CVModel × Params := ({ mode := "clfA" }, [("units", PyVal.int 1)])

/-- Second witness model (scores contain a NaN). -/
def cvM1 : CVModel × Params := ({ mode := "clfB" }, [("units", PyVal.int 2)])

/-- C7 witness: on the concrete two-model classification scenario the
loop takes the classification branch and keeps the NaN-free model's
scores. -/
theorem C7_nan_filter_witness :
    gradesOf cvsEx [cvM0, cvM1] = .ok (gradesClf cvsEx [cvM0, cvM1]) ∧
    (cvsEx cvM0.1, cvM0.2) ∈ gradesClf cvsEx [cvM0, cvM1] :=
  ⟨((C7_nan_filter cvsEx cvM0 [cvM1]).1 (by decide)).1,
   ((C7_nan_filter cvsEx cvM0 [cvM1]).1 (by decide)).2.2 cvM0.1 cvM0.2
     (by decide) (by decide)⟩
